import Mathlib

/-!
Shallow embedding of `crates/re_viewer/src/ui/view_spatial/scene/scene_part/boxes3d.rs`.

Box-extraction pipeline of the spatial scene viewer: the geometry kernel
(`transformed_box_segments`), the legacy per-object path (`Boxes3DPartClassic`)
and the columnar path (`Boxes3DPart`), together with the per-frame scene
accumulator they mutate.  Machine floats (`f32`) are modelled as exact
rationals; external collaborators (annotation lookup, transform cache,
hover state) are modelled as explicit inputs, following the spec's interface
descriptions where their code is outside the embedded fragment.
-/

/-- A 3-component vector (models `glam::Vec3` / `re_log_types::Vec3D`). -/
structure Vec3 where
  x : ℚ
  y : ℚ
  z : ℚ
deriving DecidableEq, Repr

/-- The zero vector (`glam::Vec3::ZERO`). -/
def Vec3.ZERO : Vec3 := ⟨0, 0, 0⟩

/-- A quaternion, components (x, y, z, w) (models `glam::Quat`). -/
structure Quat where
  x : ℚ
  y : ℚ
  z : ℚ
  w : ℚ
deriving DecidableEq, Repr

/-- The identity quaternion (`glam::Quat::default()` = `Quat::IDENTITY`). -/
def Quat.IDENTITY : Quat := ⟨0, 0, 0, 1⟩

/-- An affine 3D transform: a 3x3 linear part stored as three column vectors
plus a translation (models `glam::Affine3A`; `glam::Mat4` values used by the
code are affine and only ever applied through `transform_point3`, so they are
modelled by the same type). -/
structure Affine3 where
  xAxis : Vec3
  yAxis : Vec3
  zAxis : Vec3
  translation : Vec3
deriving DecidableEq, Repr

/-- `Affine3A::transform_point3`: apply the linear part, then translate. -/
def Affine3.transformPoint3 (t : Affine3) (p : Vec3) : Vec3 :=
  ⟨t.xAxis.x * p.x + t.yAxis.x * p.y + t.zAxis.x * p.z + t.translation.x,
   t.xAxis.y * p.x + t.yAxis.y * p.y + t.zAxis.y * p.z + t.translation.y,
   t.xAxis.z * p.x + t.yAxis.z * p.y + t.zAxis.z * p.z + t.translation.z⟩

/-- Scale a vector by a rational (used to scale matrix columns). -/
def Vec3.scale (v : Vec3) (s : ℚ) : Vec3 := ⟨v.x * s, v.y * s, v.z * s⟩

/-- The rotation matrix columns of a quaternion (`glam::Mat3::from_quat`). -/
def Quat.mat3XAxis (q : Quat) : Vec3 :=
  ⟨1 - 2 * (q.y * q.y + q.z * q.z), 2 * (q.x * q.y + q.w * q.z), 2 * (q.x * q.z - q.w * q.y)⟩

/-- Second rotation-matrix column of a quaternion. -/
def Quat.mat3YAxis (q : Quat) : Vec3 :=
  ⟨2 * (q.x * q.y - q.w * q.z), 1 - 2 * (q.x * q.x + q.z * q.z), 2 * (q.y * q.z + q.w * q.x)⟩

/-- Third rotation-matrix column of a quaternion. -/
def Quat.mat3ZAxis (q : Quat) : Vec3 :=
  ⟨2 * (q.x * q.z + q.w * q.y), 2 * (q.y * q.z - q.w * q.x), 1 - 2 * (q.x * q.x + q.y * q.y)⟩

/-- `glam::Affine3A::from_scale_rotation_translation`: rotation-matrix columns
scaled per-axis by the scale vector, with the given translation. -/
def Affine3.from_scale_rotation_translation (scale : Vec3) (rot : Quat) (tran : Vec3) : Affine3 :=
  ⟨rot.mat3XAxis.scale scale.x, rot.mat3YAxis.scale scale.y, rot.mat3ZAxis.scale scale.z, tran⟩

/-- Vertices for a unit cube at the origin (the `UNIT_CUBE` static: index bit 2
selects the x sign, bit 1 the y sign, bit 0 the z sign). -/
def UNIT_CUBE : Fin 8 → Vec3
  | 0 => ⟨-1/2, -1/2, -1/2⟩
  | 1 => ⟨-1/2, -1/2, 1/2⟩
  | 2 => ⟨-1/2, 1/2, -1/2⟩
  | 3 => ⟨-1/2, 1/2, 1/2⟩
  | 4 => ⟨1/2, -1/2, -1/2⟩
  | 5 => ⟨1/2, -1/2, 1/2⟩
  | 6 => ⟨1/2, 1/2, -1/2⟩
  | 7 => ⟨1/2, 1/2, 1/2⟩

/-- Line segments that build the unit cube transformed by `transform`
(`transformed_box_segments`): 4 bottom edges, 4 top edges, 4 side edges. -/
def transformed_box_segments (transform : Affine3) : List (Vec3 × Vec3) :=
  let corners : Fin 8 → Vec3 := fun i => transform.transformPoint3 (UNIT_CUBE i)
  [(corners 0, corners 1), (corners 0, corners 2), (corners 3, corners 1), (corners 3, corners 2),
   (corners 4, corners 5), (corners 4, corners 6), (corners 7, corners 5), (corners 7, corners 6),
   (corners 0, corners 4), (corners 1, corners 5), (corners 2, corners 6), (corners 3, corners 7)]

/-- An RGBA color as four byte values (models `[u8; 4]` /
`re_log_types::field_types::ColorRGBA::to_array`). -/
structure Color where
  r : ℕ
  g : ℕ
  b : ℕ
  a : ℕ
deriving DecidableEq, Repr

/-- A renderer size (models `re_renderer::Size`): either an explicit
scene-space size or the automatic sentinel (`Size::AUTO`; hover boosting an
automatic size yields the larger automatic sentinel `Size::AUTO_LARGE`). -/
inductive Size where
  | auto : Size
  | autoLarge : Size
  | scene : ℚ → Size
deriving DecidableEq, Repr

/-- `Size::new_scene`: an explicit scene-space size. -/
def Size.new_scene (r : ℚ) : Size := Size.scene r

/-- An instance identity hash (models `re_data_store::InstanceIdHash`): the
"none" sentinel, or a value derived from the entity path and the instance's
row identifier.  The derivation is modelled injectively, which realises the
spec's stability and distinctness requirements. -/
inductive InstanceIdHash where
  | NONE : InstanceIdHash
  | hash : String → ℕ → InstanceIdHash
deriving DecidableEq, Repr

/-- `InstanceIdHash::is_some`: true iff the hash is not the sentinel. -/
def InstanceIdHash.isSome : InstanceIdHash → Bool
  | .NONE => false
  | .hash _ _ => true

/-- Modelled from the spec: `instance_hash_if_interactive` (defined in the
spatial scene module, outside the embedded fragment).  If the entity is not
interactive the sentinel is returned regardless of the row id; otherwise a
stable hash of the entity path and the row id (a missing row id hashes like
the index sentinel, modelled as 0). -/
def instance_hash_if_interactive (objPath : String) (indexOpt : Option ℕ)
    (interactiveFlag : Bool) : InstanceIdHash :=
  if interactiveFlag then InstanceIdHash.hash objPath (indexOpt.getD 0) else InstanceIdHash.NONE

/-- Modelled from the spec: the resolved per-class annotation record
(`AnnotationInfo` of the external annotation subsystem): an optional
configured color and an optional configured label. -/
structure AnnotationInfo where
  colorOpt : Option Color
  labelOpt : Option String

/-- Modelled from the spec: `AnnotationInfo::color` — explicit per-instance
color if present, else the class-configured color, else the entity-level
default color. -/
def AnnotationInfo.colorFor (info : AnnotationInfo) (raw : Option Color)
    (defaultColor : Color) : Color :=
  (raw.orElse fun _ => info.colorOpt).getD defaultColor

/-- Modelled from the spec: `AnnotationInfo::label` — explicit per-instance
label if present, else the class-configured label, else none. -/
def AnnotationInfo.labelFor (info : AnnotationInfo) (raw : Option String) : Option String :=
  raw.orElse fun _ => info.labelOpt

/-- Modelled from the spec: `to_ecolor` converts a resolved color into the
UI color type; the conversion is an external bijective re-encoding, modelled
as the identity on the abstract color type. -/
def to_ecolor (c : Color) : Color := c

/-- Modelled from the spec: `SceneSpatial::HOVER_COLOR`, the fixed highlight
color constant. -/
def HOVER_COLOR : Color := ⟨255, 255, 255, 255⟩

/-- Modelled from the spec: `SceneSpatial::hover_size_boost` enlarges a size
by a fixed boost — automatic sizes become the larger automatic sentinel,
explicit sizes are scaled by a fixed factor. -/
def hover_size_boost : Size → Size
  | .auto => .autoLarge
  | .autoLarge => .autoLarge
  | .scene r => .scene (3 / 2 * r)

/-- An oriented box record of the legacy store (models `re_log_types::Box3`
with its `[f32; 4]` rotation already viewed as the quaternion that
`glam::Quat::from_array` builds from it). -/
structure Box3 where
  rotation : Quat
  translation : Vec3
  half_size : Vec3
deriving DecidableEq, Repr

/-- One joined row yielded by the legacy per-object store visit
(`visit_type_data_4` with primary field "obb" and the four optional fields):
instance index, timestamp, message id, the box, and the optional color,
stroke width, label and class id columns. -/
structure ClassicRow where
  instanceIndex : Option ℕ
  time : ℤ
  msgId : ℕ
  obb : Box3
  color : Option Color
  stroke_width : Option ℚ
  label : Option String
  classId : Option ℤ
deriving DecidableEq, Repr

/-- `i32 as u16`: the low 16 bits of the two's-complement representation
(the legacy visitor's `ClassId(*i as _)` cast). -/
def u16OfI32 (i : ℤ) : ℕ := (i % 65536).toNat

/-- One joined row yielded by the columnar entity view (`visit7` over the
primary `Box3D` half-size component and the six auxiliary components). -/
structure ArrowRow where
  inst : ℕ
  halfSize : Vec3
  position : Option Vec3
  rotation : Option Quat
  color : Option Color
  radius : Option ℚ
  label : Option String
  classId : Option ℕ
deriving DecidableEq, Repr

/-- One appended line segment together with the attributes set on its batch
entry (`add_segments(..).radius(..).color(..).user_data(..)`). -/
structure StripEntry where
  p0 : Vec3
  p1 : Vec3
  radius : Size
  color : Color
  userData : InstanceIdHash
deriving DecidableEq, Repr

/-- A 3D label anchor (models `Label3D`). -/
structure Label3D where
  text : String
  origin : Vec3
deriving DecidableEq, Repr

/-- A named line batch: the name, the world transform attached to it, and its
appended entries, in append order. -/
structure LineBatch where
  name : String
  world_from_obj : Affine3
  entries : List StripEntry
deriving DecidableEq, Repr

/-- The per-frame spatial scene accumulator (the parts of `SceneSpatial` this
fragment mutates): the logged-object counter, the line batches, and the 3D
labels. -/
structure SceneSpatial where
  num_logged_3d_objects : ℕ
  batches : List LineBatch
  labels_3d : List Label3D
deriving DecidableEq, Repr

/-- The empty per-frame scene accumulator. -/
def SceneSpatial.empty : SceneSpatial := ⟨0, [], []⟩

/-- The per-entity context captured by both per-row visitors: the entity
path, its interactivity flag, its resolved annotation lookup (class id to
annotation record), the entity-level default color, and the hovered
identity. -/
structure EntityCtx where
  objPath : String
  interactiveFlag : Bool
  annotationFor : Option ℕ → AnnotationInfo
  defaultColor : Color
  hovered : InstanceIdHash

/-- What one visitor invocation appends: the batch entries (one per segment)
and the optional 3D label. -/
structure VisitOut where
  entries : List StripEntry
  labelOut : Option Label3D

/-- The legacy per-row visitor closure in `Boxes3DPartClassic::load`
(source lines 104-144): resolve the line radius from the stroke width
(halved), resolve color and label through the annotation record, push the
label (anchored at the world-transformed box translation), compute the
instance hash, apply the hover override, build the instance-local affine
transform from the box's half size, rotation and translation, and append the
12 transformed unit-cube segments with the resolved attributes. -/
def classicVisit (ctx : EntityCtx) (world_from_obj : Affine3) (row : ClassicRow) : VisitOut :=
  let line_radius := row.stroke_width.elim Size.auto fun w => Size.new_scene (w / 2)
  let info := ctx.annotationFor (row.classId.map u16OfI32)
  let color := to_ecolor (info.colorFor row.color ctx.defaultColor)
  let labelText := info.labelFor row.label
  let labelOut := labelText.map fun l =>
    Label3D.mk l (world_from_obj.transformPoint3 row.obb.translation)
  let instance_hash :=
    instance_hash_if_interactive ctx.objPath row.instanceIndex ctx.interactiveFlag
  let hoverHit := instance_hash.isSome && instance_hash == ctx.hovered
  let color := if hoverHit then HOVER_COLOR else color
  let line_radius := if hoverHit then hover_size_boost line_radius else line_radius
  let transform := Affine3.from_scale_rotation_translation
    row.obb.half_size row.obb.rotation row.obb.translation
  let entries := (transformed_box_segments transform).map fun s =>
    StripEntry.mk s.1 s.2 line_radius color instance_hash
  ⟨entries, labelOut⟩

/-- The instance-hash computation at the head of the columnar visitor
(source lines 188-194): `InstanceIdHash::from_path_and_arrow_instance` when
the entity is interactive, the sentinel otherwise (the hash derivation
itself is modelled from the spec, as for the legacy path). -/
def arrowInstanceHash (ctx : EntityCtx) (row : ArrowRow) : InstanceIdHash :=
  if ctx.interactiveFlag then InstanceIdHash.hash ctx.objPath row.inst
  else InstanceIdHash.NONE

/-- The columnar per-row visitor closure in `Boxes3DPart::process_entity_view`
(source lines 180-226): compute the instance hash, resolve the annotation
record, resolve the radius from the raw radius component (used as-is, not
halved), resolve the color, apply the hover override, build the
instance-local transform (missing rotation defaults to the identity, missing
position to the origin), append the 12 transformed segments, then push the
label if one resolves. -/
def arrowVisit (ctx : EntityCtx) (world_from_obj : Affine3) (row : ArrowRow) : VisitOut :=
  let instance_hash := arrowInstanceHash ctx row
  let info := ctx.annotationFor row.classId
  let radius := row.radius.elim Size.auto fun r => Size.new_scene r
  let color := to_ecolor (info.colorFor row.color ctx.defaultColor)
  let hoverHit := instance_hash.isSome && instance_hash == ctx.hovered
  let color := if hoverHit then HOVER_COLOR else color
  let radius := if hoverHit then hover_size_boost radius else radius
  let scale := row.halfSize
  let rot := row.rotation.getD Quat.IDENTITY
  let tran := row.position.getD Vec3.ZERO
  let transform := Affine3.from_scale_rotation_translation scale rot tran
  let entries := (transformed_box_segments transform).map fun s =>
    StripEntry.mk s.1 s.2 radius color instance_hash
  let labelOut := (info.labelFor row.label).map fun l =>
    Label3D.mk l (world_from_obj.transformPoint3 tran)
  ⟨entries, labelOut⟩

/-- Accumulate a row sequence through a visitor: all batch entries in row
order, and all resolved labels in row order. -/
def rowsOut {ρ : Type} (visit : ρ → VisitOut) (rows : List ρ) :
    List StripEntry × List Label3D :=
  (rows.flatMap fun r => (visit r).entries, rows.filterMap fun r => (visit r).labelOut)

/-- The transform-cache result for an entity
(`ReferenceFromObjTransform`): reachable with a world-from-object transform,
or unreachable. -/
inductive ReferenceFromObjTransform where
  | Reachable : Affine3 → ReferenceFromObjTransform
  | Unreachable : ReferenceFromObjTransform
deriving DecidableEq, Repr

/-- One object store yielded to `Boxes3DPartClassic::load` by
`query.iter_object_stores`: the object path, its interactivity property, the
transform-cache result for it, and the joined rows its `visit_type_data_4`
visit yields. -/
structure ClassicEntity where
  objPath : String
  interactiveFlag : Bool
  transform : ReferenceFromObjTransform
  rows : List ClassicRow
deriving Repr

/-- The body of the per-store loop of `Boxes3DPartClassic::load` (source
lines 87-153): increment the logged-object counter, look up annotations and
the default color, then — only if the transform is reachable — open a
"box 3d" batch bound to the world transform and run the visitor over the
rows, appending entries and labels. -/
def Boxes3DPartClassic.processStore (annotationMap : String → Option ℕ → AnnotationInfo)
    (defaultColorFor : String → Color) (hovered : InstanceIdHash)
    (e : ClassicEntity) (scene : SceneSpatial) : SceneSpatial :=
  let scene := { scene with num_logged_3d_objects := scene.num_logged_3d_objects + 1 }
  match e.transform with
  | .Unreachable => scene
  | .Reachable world_from_obj =>
    let ctx : EntityCtx :=
      ⟨e.objPath, e.interactiveFlag, annotationMap e.objPath, defaultColorFor e.objPath, hovered⟩
    let out := rowsOut (classicVisit ctx world_from_obj) e.rows
    { scene with
      batches := scene.batches ++ [⟨"box 3d", world_from_obj, out.1⟩],
      labels_3d := scene.labels_3d ++ out.2 }

/-- `Boxes3DPartClassic::load`: fold the per-store loop body over the object
stores of the query. -/
def Boxes3DPartClassic.load (annotationMap : String → Option ℕ → AnnotationInfo)
    (defaultColorFor : String → Color) (hovered : InstanceIdHash)
    (entities : List ClassicEntity) (scene : SceneSpatial) : SceneSpatial :=
  entities.foldl
    (fun s e => Boxes3DPartClassic.processStore annotationMap defaultColorFor hovered e s) scene

/-- The result of `query_entity_with_primary` for one entity: a materialized
entity view (its joined rows), the primary-component-not-found case, or a
genuine query error carrying its message. -/
inductive QueryResult where
  | ok : List ArrowRow → QueryResult
  | primaryNotFound : QueryResult
  | otherError : String → QueryResult
deriving Repr

/-- One entity yielded to `Boxes3DPart::load` by `query.iter_entities`: the
entity path, its interactivity property, the transform-cache result, and
what the columnar query returns for it. -/
structure ArrowEntity where
  entPath : String
  interactiveFlag : Bool
  transform : ReferenceFromObjTransform
  queryResult : QueryResult
deriving Repr

/-- `Boxes3DPart::process_entity_view` (source lines 161-229): increment the
logged-object counter, look up annotations and the default color, open a
"box 3d" batch bound to the world transform, and run the columnar visitor
over the view's rows. -/
def Boxes3DPart.process_entity_view (annotationMap : String → Option ℕ → AnnotationInfo)
    (defaultColorFor : String → Color) (hovered : InstanceIdHash)
    (interactiveFlag : Bool) (rows : List ArrowRow) (entPath : String)
    (world_from_obj : Affine3) (scene : SceneSpatial) : SceneSpatial :=
  let scene := { scene with num_logged_3d_objects := scene.num_logged_3d_objects + 1 }
  let ctx : EntityCtx :=
    ⟨entPath, interactiveFlag, annotationMap entPath, defaultColorFor entPath, hovered⟩
  let out := rowsOut (arrowVisit ctx world_from_obj) rows
  { scene with
    batches := scene.batches ++ [⟨"box 3d", world_from_obj, out.1⟩],
    labels_3d := scene.labels_3d ++ out.2 }

/-- The body of the per-entity loop of `Boxes3DPart::load` (source lines
243-277): skip unreachable entities before querying; on a successful query
process the entity view; treat a primary-not-found result as a silent no-op;
log one error entry for any other query error.  The second component is the
error-log accumulator. -/
def Boxes3DPart.loadStep (annotationMap : String → Option ℕ → AnnotationInfo)
    (defaultColorFor : String → Color) (hovered : InstanceIdHash)
    (acc : SceneSpatial × List (String × String)) (e : ArrowEntity) :
    SceneSpatial × List (String × String) :=
  match e.transform with
  | .Unreachable => acc
  | .Reachable world_from_obj =>
    match e.queryResult with
    | .ok rows =>
      (Boxes3DPart.process_entity_view annotationMap defaultColorFor hovered
        e.interactiveFlag rows e.entPath world_from_obj acc.1, acc.2)
    | .primaryNotFound => acc
    | .otherError msg => (acc.1, acc.2 ++ [(e.entPath, msg)])

/-- `Boxes3DPart::load`: fold the per-entity loop body over the entities of
the query, threading the scene and the error log. -/
def Boxes3DPart.load (annotationMap : String → Option ℕ → AnnotationInfo)
    (defaultColorFor : String → Color) (hovered : InstanceIdHash)
    (entities : List ArrowEntity) (scene : SceneSpatial)
    (log : List (String × String)) : SceneSpatial × List (String × String) :=
  entities.foldl (Boxes3DPart.loadStep annotationMap defaultColorFor hovered) (scene, log)

/-- The corner-index pairs of the 12 cube edges, in the order the geometry
kernel emits them: 4 bottom edges, 4 top edges, 4 side edges. -/
def boxEdgeIndexPairs : List (Fin 8 × Fin 8) :=
  [(0, 1), (0, 2), (3, 1), (3, 2), (4, 5), (4, 6), (7, 5), (7, 6), (0, 4), (1, 5), (2, 6), (3, 7)]

/-- Two points differ in exactly one coordinate sign: one coordinate is
negated and the other two agree (for the cube corners this makes the pair a
cube edge). -/
def oppositeInOneCoord (p q : Vec3) : Prop :=
  (p.x = -q.x ∧ p.y = q.y ∧ p.z = q.z) ∨
  (p.x = q.x ∧ p.y = -q.y ∧ p.z = q.z) ∨
  (p.x = q.x ∧ p.y = q.y ∧ p.z = -q.z)

/-- Claim C5: for every affine transform, `transformed_box_segments` returns
exactly 12 point pairs; each pair is the transform applied to two canonical
unit-cube corners (coordinates ±1/2 on each axis) that differ in exactly one
coordinate sign; the order is fixed: 4 bottom edges (x = -1/2), 4 top edges
(x = 1/2), then 4 side edges (differing in x). -/
theorem geometry_kernel_c5 (t : Affine3) :
    transformed_box_segments t =
      boxEdgeIndexPairs.map
        (fun ij => (t.transformPoint3 (UNIT_CUBE ij.1), t.transformPoint3 (UNIT_CUBE ij.2))) ∧
    (transformed_box_segments t).length = 12 ∧
    (∀ ij ∈ boxEdgeIndexPairs, oppositeInOneCoord (UNIT_CUBE ij.1) (UNIT_CUBE ij.2)) ∧
    (∀ i : Fin 8,
      ((UNIT_CUBE i).x = 1/2 ∨ (UNIT_CUBE i).x = -1/2) ∧
      ((UNIT_CUBE i).y = 1/2 ∨ (UNIT_CUBE i).y = -1/2) ∧
      ((UNIT_CUBE i).z = 1/2 ∨ (UNIT_CUBE i).z = -1/2)) ∧
    (∀ ij ∈ boxEdgeIndexPairs.take 4,
      (UNIT_CUBE ij.1).x = -1/2 ∧ (UNIT_CUBE ij.2).x = -1/2) ∧
    (∀ ij ∈ (boxEdgeIndexPairs.drop 4).take 4,
      (UNIT_CUBE ij.1).x = 1/2 ∧ (UNIT_CUBE ij.2).x = 1/2) ∧
    (∀ ij ∈ boxEdgeIndexPairs.drop 8,
      (UNIT_CUBE ij.1).x = -(UNIT_CUBE ij.2).x ∧
      (UNIT_CUBE ij.1).y = (UNIT_CUBE ij.2).y ∧
      (UNIT_CUBE ij.1).z = (UNIT_CUBE ij.2).z) := by
  refine ⟨rfl, rfl, ?_, ?_, ?_, ?_, ?_⟩
  · intro ij hij
    fin_cases hij <;> simp [UNIT_CUBE, oppositeInOneCoord] <;> norm_num
  · intro i
    fin_cases i <;> simp [UNIT_CUBE]
  · intro ij hij
    fin_cases hij <;> simp [UNIT_CUBE]
  · intro ij hij
    fin_cases hij <;> simp [UNIT_CUBE]
  · intro ij hij
    fin_cases hij <;> simp [UNIT_CUBE] <;> norm_num

/-- The hover condition can never fire against the sentinel or for a sentinel
hash: `is_some` rules out the sentinel on the left, and equality with a
non-sentinel rules it out on the right. -/
lemma hoverHit_false_left (h : InstanceIdHash) (hov : InstanceIdHash)
    (hs : h = InstanceIdHash.NONE) : (h.isSome && h == hov) = false := by
  subst hs; rfl

/-- Against the sentinel hover state, the hover condition is false for every
hash. -/
lemma hoverHit_false_right (h : InstanceIdHash) :
    (h.isSome && h == InstanceIdHash.NONE) = false := by
  cases h <;> rfl

/-- An annotation lookup with no configured colors or labels. -/
def annNone : String → Option ℕ → AnnotationInfo := fun _ _ => ⟨none, none⟩

/-- A fixed default-color policy: every entity path resolves to red. -/
def defRed : String → Color := fun _ => ⟨255, 0, 0, 255⟩

/-- The identity world transform. -/
def A3id : Affine3 := ⟨⟨1, 0, 0⟩, ⟨0, 1, 0⟩, ⟨0, 0, 1⟩, ⟨0, 0, 0⟩⟩

/-- A world transform translating by one unit along x. -/
def A3shift : Affine3 := ⟨⟨1, 0, 0⟩, ⟨0, 1, 0⟩, ⟨0, 0, 1⟩, ⟨1, 0, 0⟩⟩

/-- A non-hovered entity context over the identity annotation data. -/
def ctxPlain : EntityCtx := ⟨"box1", true, annNone "box1", defRed "box1", InstanceIdHash.NONE⟩

/-- An axis-aligned unit box at the origin. -/
def obbUnit : Box3 := ⟨Quat.IDENTITY, Vec3.ZERO, ⟨1, 1, 1⟩⟩

/-- Claim C1 (amended): with no hover hit, the legacy path resolves a present
stroke width `w` to the scene-space size `w / 2` and an absent one to the
automatic sentinel, while the columnar path resolves a present radius `r` to
the scene-space size `r` itself (not halved) and an absent one to the
automatic sentinel. -/
theorem radius_resolution_c1 (ctx : EntityCtx) (w : Affine3)
    (crow : ClassicRow) (arow : ArrowRow) (cnone : ClassicRow) (anone : ArrowRow)
    (sw rr : ℚ) (hhov : ctx.hovered = InstanceIdHash.NONE)
    (hsw : crow.stroke_width = some sw) (hr : arow.radius = some rr)
    (hcn : cnone.stroke_width = none) (han : anone.radius = none) :
    (∀ e ∈ (classicVisit ctx w crow).entries, e.radius = Size.new_scene (sw / 2)) ∧
    (∀ e ∈ (arrowVisit ctx w arow).entries, e.radius = Size.new_scene rr) ∧
    (∀ e ∈ (classicVisit ctx w cnone).entries, e.radius = Size.auto) ∧
    (∀ e ∈ (arrowVisit ctx w anone).entries, e.radius = Size.auto) := by
  refine ⟨?_, ?_, ?_, ?_⟩ <;>
    · intro e he
      simp only [classicVisit, arrowVisit, List.mem_map, hhov, hoverHit_false_right,
        hsw, hr, hcn, han, Option.elim, Bool.false_eq_true, if_false] at he
      obtain ⟨s, _, rfl⟩ := he
      rfl

/-- A columnar row whose raw radius component is 2. -/
def arowR2 : ArrowRow := ⟨0, ⟨1, 1, 1⟩, none, none, none, some 2, none, none⟩

/-- Claim C1, counterexample: in the columnar path a raw radius of 2 is
resolved to the scene-space size 2, which is not the halved size 2 / 2 the
claim requires for the columnar path. -/
theorem radius_resolution_c1_cex :
    ((arrowVisit ctxPlain A3id arowR2).entries.map fun e => e.radius) =
      List.replicate 12 (Size.new_scene 2) ∧
    Size.new_scene 2 ≠ Size.new_scene (2 / 2) := by
  constructor
  · rfl
  · simp only [Size.new_scene, ne_eq, Size.scene.injEq]
    norm_num

/-- A legacy row with stroke width 3 and no other optional fields. -/
def crowSW3 : ClassicRow := ⟨some 0, 0, 0, obbUnit, none, some 3, none, none⟩

/-- A legacy row with no optional fields at all. -/
def crowNone : ClassicRow := ⟨some 0, 0, 0, obbUnit, none, none, none, none⟩

/-- A columnar row with no optional components. -/
def arowNone : ArrowRow := ⟨0, ⟨1, 1, 1⟩, none, none, none, none, none, none⟩

/-- Witness for claim C1 (amended), at stroke width 3 and radius 2. -/
theorem radius_resolution_c1_witness :
    ctxPlain.hovered = InstanceIdHash.NONE ∧
    crowSW3.stroke_width = some 3 ∧ arowR2.radius = some 2 ∧
    crowNone.stroke_width = none ∧ arowNone.radius = none ∧
    ((∀ e ∈ (classicVisit ctxPlain A3id crowSW3).entries, e.radius = Size.new_scene (3 / 2)) ∧
     (∀ e ∈ (arrowVisit ctxPlain A3id arowR2).entries, e.radius = Size.new_scene 2) ∧
     (∀ e ∈ (classicVisit ctxPlain A3id crowNone).entries, e.radius = Size.auto) ∧
     (∀ e ∈ (arrowVisit ctxPlain A3id arowNone).entries, e.radius = Size.auto)) :=
  ⟨rfl, rfl, rfl, rfl, rfl,
    radius_resolution_c1 ctxPlain A3id crowSW3 arowR2 crowNone arowNone 3 2 rfl rfl rfl rfl rfl⟩

/-- Claim C2 (amended): an entity whose transform resolves to `Unreachable`
contributes zero segments and zero labels in both paths, and in the columnar
path neither the counter, the batches, the labels nor the error log change;
in the legacy path, however, the logged-object counter is incremented before
the reachability check, so it still increases by one for the unreachable
entity while everything else is left unchanged. -/
theorem reachability_gating_c2 (annotationMap : String → Option ℕ → AnnotationInfo)
    (defaultColorFor : String → Color) (hovered : InstanceIdHash)
    (e : ClassicEntity) (a : ArrowEntity) (scene scene2 : SceneSpatial)
    (log : List (String × String))
    (hc : e.transform = ReferenceFromObjTransform.Unreachable)
    (ha : a.transform = ReferenceFromObjTransform.Unreachable) :
    Boxes3DPartClassic.processStore annotationMap defaultColorFor hovered e scene =
      { scene with num_logged_3d_objects := scene.num_logged_3d_objects + 1 } ∧
    Boxes3DPart.loadStep annotationMap defaultColorFor hovered (scene2, log) a =
      (scene2, log) := by
  constructor
  · simp [Boxes3DPartClassic.processStore, hc]
  · simp [Boxes3DPart.loadStep, ha]

/-- An unreachable legacy entity that nevertheless carries a row. -/
def centUnreach : ClassicEntity := ⟨"box1", true, .Unreachable, [crowSW3]⟩

/-- An unreachable columnar entity with a successful query in store. -/
def aentUnreach : ArrowEntity := ⟨"box1", true, .Unreachable, .ok [arowR2]⟩

/-- Witness for claim C2 (amended), on concrete unreachable entities. -/
theorem reachability_gating_c2_witness :
    centUnreach.transform = ReferenceFromObjTransform.Unreachable ∧
    aentUnreach.transform = ReferenceFromObjTransform.Unreachable ∧
    (Boxes3DPartClassic.processStore annNone defRed InstanceIdHash.NONE centUnreach
        SceneSpatial.empty =
      { SceneSpatial.empty with
        num_logged_3d_objects := SceneSpatial.empty.num_logged_3d_objects + 1 } ∧
     Boxes3DPart.loadStep annNone defRed InstanceIdHash.NONE (SceneSpatial.empty, []) aentUnreach =
      (SceneSpatial.empty, [])) :=
  ⟨rfl, rfl,
    reachability_gating_c2 annNone defRed InstanceIdHash.NONE centUnreach aentUnreach
      SceneSpatial.empty SceneSpatial.empty [] rfl rfl⟩

/-- Claim C2, counterexample: loading a single unreachable legacy entity from
the empty scene yields zero batches and zero labels but a logged-object
counter of 1 — the legacy path does increment the counter for an unreachable
entity, contradicting the claim that it does not. -/
theorem reachability_gating_c2_cex :
    Boxes3DPartClassic.load annNone defRed InstanceIdHash.NONE [centUnreach]
        SceneSpatial.empty = ⟨1, [], []⟩ ∧
    (1 : ℕ) ≠ 0 := by
  exact ⟨rfl, by decide⟩

/-- Claim C4: in the columnar path, a reachable entity whose query returns
the primary-not-found result produces zero output and zero log entries; a
reachable entity whose query fails with a genuine error produces zero output
and exactly one log entry for that entity; in both cases the load continues
with the remaining entities (the fold proceeds — no error propagates). -/
theorem missing_primary_c4 (annotationMap : String → Option ℕ → AnnotationInfo)
    (defaultColorFor : String → Color) (hovered : InstanceIdHash)
    (a1 a2 : ArrowEntity) (w1 w2 : Affine3) (msg : String)
    (rest : List ArrowEntity) (scene : SceneSpatial) (log : List (String × String))
    (h1 : a1.transform = ReferenceFromObjTransform.Reachable w1)
    (hq1 : a1.queryResult = QueryResult.primaryNotFound)
    (h2 : a2.transform = ReferenceFromObjTransform.Reachable w2)
    (hq2 : a2.queryResult = QueryResult.otherError msg) :
    Boxes3DPart.loadStep annotationMap defaultColorFor hovered (scene, log) a1 = (scene, log) ∧
    Boxes3DPart.loadStep annotationMap defaultColorFor hovered (scene, log) a2 =
      (scene, log ++ [(a2.entPath, msg)]) ∧
    Boxes3DPart.load annotationMap defaultColorFor hovered (a1 :: rest) scene log =
      Boxes3DPart.load annotationMap defaultColorFor hovered rest scene log ∧
    Boxes3DPart.load annotationMap defaultColorFor hovered (a2 :: rest) scene log =
      Boxes3DPart.load annotationMap defaultColorFor hovered rest scene
        (log ++ [(a2.entPath, msg)]) := by
  have s1 : Boxes3DPart.loadStep annotationMap defaultColorFor hovered (scene, log) a1 =
      (scene, log) := by
    simp [Boxes3DPart.loadStep, h1, hq1]
  have s2 : Boxes3DPart.loadStep annotationMap defaultColorFor hovered (scene, log) a2 =
      (scene, log ++ [(a2.entPath, msg)]) := by
    simp [Boxes3DPart.loadStep, h2, hq2]
  refine ⟨s1, s2, ?_, ?_⟩
  · simp [Boxes3DPart.load, List.foldl_cons, s1]
  · simp [Boxes3DPart.load, List.foldl_cons, s2]

/-- A reachable columnar entity whose primary component is missing. -/
def aentNotFound : ArrowEntity := ⟨"missing", true, .Reachable A3id, .primaryNotFound⟩

/-- A reachable columnar entity whose query fails with a genuine error. -/
def aentErr : ArrowEntity := ⟨"corrupt", true, .Reachable A3id, .otherError "bad data"⟩

/-- Witness for claim C4, on concrete not-found and erroring entities. -/
theorem missing_primary_c4_witness :
    aentNotFound.transform = ReferenceFromObjTransform.Reachable A3id ∧
    aentNotFound.queryResult = QueryResult.primaryNotFound ∧
    aentErr.transform = ReferenceFromObjTransform.Reachable A3id ∧
    aentErr.queryResult = QueryResult.otherError "bad data" ∧
    (Boxes3DPart.loadStep annNone defRed InstanceIdHash.NONE (SceneSpatial.empty, [])
        aentNotFound = (SceneSpatial.empty, []) ∧
     Boxes3DPart.loadStep annNone defRed InstanceIdHash.NONE (SceneSpatial.empty, []) aentErr =
      (SceneSpatial.empty, [] ++ [(aentErr.entPath, "bad data")]) ∧
     Boxes3DPart.load annNone defRed InstanceIdHash.NONE [aentNotFound] SceneSpatial.empty [] =
      Boxes3DPart.load annNone defRed InstanceIdHash.NONE [] SceneSpatial.empty [] ∧
     Boxes3DPart.load annNone defRed InstanceIdHash.NONE [aentErr] SceneSpatial.empty [] =
      Boxes3DPart.load annNone defRed InstanceIdHash.NONE [] SceneSpatial.empty
        ([] ++ [(aentErr.entPath, "bad data")])) :=
  ⟨rfl, rfl, rfl, rfl,
    missing_primary_c4 annNone defRed InstanceIdHash.NONE aentNotFound aentErr A3id A3id
      "bad data" [] SceneSpatial.empty [] rfl rfl rfl rfl⟩

/-- Claim C6 (amended): the segments appended for an instance are transformed
only by the instance-local scale/rotation/translation transform and are
independent of the entity's world transform — they are appended in object
space, so the world transform attached to the batch is required (not merely
informational) to place them in world space.  Only the label anchors are
pre-transformed by the world transform. -/
theorem batch_transform_c6 (ctx : EntityCtx) (w w2 : Affine3)
    (crow : ClassicRow) (arow : ArrowRow) :
    (classicVisit ctx w crow).entries = (classicVisit ctx w2 crow).entries ∧
    (arrowVisit ctx w arow).entries = (arrowVisit ctx w2 arow).entries ∧
    (∀ e ∈ (classicVisit ctx w crow).entries,
      ∃ s ∈ transformed_box_segments (Affine3.from_scale_rotation_translation
          crow.obb.half_size crow.obb.rotation crow.obb.translation),
        e.p0 = s.1 ∧ e.p1 = s.2) ∧
    (∀ e ∈ (arrowVisit ctx w arow).entries,
      ∃ s ∈ transformed_box_segments (Affine3.from_scale_rotation_translation
          arow.halfSize (arow.rotation.getD Quat.IDENTITY) (arow.position.getD Vec3.ZERO)),
        e.p0 = s.1 ∧ e.p1 = s.2) := by
  refine ⟨rfl, rfl, ?_, ?_⟩
  · intro e he
    simp only [classicVisit, List.mem_map] at he
    obtain ⟨s, hs, rfl⟩ := he
    exact ⟨s, hs, rfl, rfl⟩
  · intro e he
    simp only [arrowVisit, List.mem_map] at he
    obtain ⟨s, hs, rfl⟩ := he
    exact ⟨s, hs, rfl, rfl⟩

/-- A reachable legacy entity, world transform a unit shift along x, one
attribute-free row with the unit box. -/
def centShift : ClassicEntity := ⟨"box1", true, .Reachable A3shift, [crowNone]⟩

/-- Claim C6, counterexample: with the world transform a unit shift along x,
the batch records that world transform, yet the first appended segment point
is the object-space corner (-1/2, -1/2, -1/2); its world-space position is
(1/2, -1/2, -1/2), which differs — so appended segments are not
pre-transformed into world space and the batch transform is load-bearing. -/
theorem batch_transform_c6_cex :
    ((Boxes3DPartClassic.load annNone defRed InstanceIdHash.NONE [centShift]
        SceneSpatial.empty).batches.map fun b => b.world_from_obj) = [A3shift] ∧
    (((Boxes3DPartClassic.load annNone defRed InstanceIdHash.NONE [centShift]
        SceneSpatial.empty).batches.head?.bind fun b => b.entries.head?).map fun e => e.p0) =
      some ⟨-1/2, -1/2, -1/2⟩ ∧
    A3shift.transformPoint3 ⟨-1/2, -1/2, -1/2⟩ = ⟨1/2, -1/2, -1/2⟩ ∧
    (⟨1/2, -1/2, -1/2⟩ : Vec3) ≠ ⟨-1/2, -1/2, -1/2⟩ := by
  refine ⟨rfl, ?_, ?_, ?_⟩
  · simp only [Boxes3DPartClassic.load, Boxes3DPartClassic.processStore, centShift, rowsOut,
      classicVisit, crowNone, obbUnit, transformed_box_segments,
      Affine3.from_scale_rotation_translation, Quat.mat3XAxis, Quat.mat3YAxis, Quat.mat3ZAxis,
      Vec3.scale, Affine3.transformPoint3, UNIT_CUBE, Quat.IDENTITY, Vec3.ZERO,
      SceneSpatial.empty, List.foldl_cons, List.foldl_nil, List.flatMap_cons, List.flatMap_nil,
      List.filterMap_cons, List.filterMap_nil, List.map_cons, List.head?, List.append_nil,
      List.nil_append, Option.bind, Option.map, Vec3.mk.injEq, Option.some.injEq]
    norm_num
  · simp only [A3shift, Affine3.transformPoint3, Vec3.mk.injEq]
    norm_num
  · simp only [ne_eq, Vec3.mk.injEq, not_and]
    norm_num

/-- Whether a columnar entity reaches `process_entity_view` (and hence the
counter increment): its transform is reachable and its query succeeds. -/
def ArrowEntity.counted (a : ArrowEntity) : Bool :=
  match a.transform, a.queryResult with
  | .Reachable _, .ok _ => true
  | _, _ => false

/-- The legacy per-store body always increments the counter by exactly one. -/
lemma processStore_counter (annotationMap : String → Option ℕ → AnnotationInfo)
    (defaultColorFor : String → Color) (hovered : InstanceIdHash)
    (e : ClassicEntity) (scene : SceneSpatial) :
    (Boxes3DPartClassic.processStore annotationMap defaultColorFor hovered e
        scene).num_logged_3d_objects = scene.num_logged_3d_objects + 1 := by
  cases h : e.transform <;> simp [Boxes3DPartClassic.processStore, h]

/-- The legacy load adds the entity count to the counter. -/
lemma classic_load_counter (annotationMap : String → Option ℕ → AnnotationInfo)
    (defaultColorFor : String → Color) (hovered : InstanceIdHash)
    (entities : List ClassicEntity) : ∀ scene : SceneSpatial,
    (Boxes3DPartClassic.load annotationMap defaultColorFor hovered entities
        scene).num_logged_3d_objects = scene.num_logged_3d_objects + entities.length := by
  induction entities with
  | nil => intro scene; simp [Boxes3DPartClassic.load]
  | cons e rest ih =>
    intro scene
    have step := processStore_counter annotationMap defaultColorFor hovered e scene
    calc (Boxes3DPartClassic.load annotationMap defaultColorFor hovered (e :: rest)
            scene).num_logged_3d_objects
        = (Boxes3DPartClassic.processStore annotationMap defaultColorFor hovered e
            scene).num_logged_3d_objects + rest.length := ih _
      _ = scene.num_logged_3d_objects + (e :: rest).length := by
          rw [step]; simp [List.length_cons]; ring

/-- The columnar per-entity body increments the counter exactly when the
entity is reachable with a successful query. -/
lemma loadStep_counter (annotationMap : String → Option ℕ → AnnotationInfo)
    (defaultColorFor : String → Color) (hovered : InstanceIdHash)
    (acc : SceneSpatial × List (String × String)) (a : ArrowEntity) :
    (Boxes3DPart.loadStep annotationMap defaultColorFor hovered acc a).1.num_logged_3d_objects =
      acc.1.num_logged_3d_objects + (if a.counted then 1 else 0) := by
  cases ht : a.transform with
  | Unreachable => simp [Boxes3DPart.loadStep, ArrowEntity.counted, ht]
  | Reachable w =>
    cases hq : a.queryResult <;>
      simp [Boxes3DPart.loadStep, Boxes3DPart.process_entity_view, ArrowEntity.counted, ht, hq]

/-- The columnar load adds the count of reachable-and-successful entities to
the counter. -/
lemma arrow_load_counter (annotationMap : String → Option ℕ → AnnotationInfo)
    (defaultColorFor : String → Color) (hovered : InstanceIdHash)
    (entities : List ArrowEntity) : ∀ (scene : SceneSpatial) (log : List (String × String)),
    (Boxes3DPart.load annotationMap defaultColorFor hovered entities scene
        log).1.num_logged_3d_objects =
      scene.num_logged_3d_objects + (entities.filter ArrowEntity.counted).length := by
  induction entities with
  | nil => intro scene log; simp [Boxes3DPart.load]
  | cons a rest ih =>
    intro scene log
    have hcons : Boxes3DPart.load annotationMap defaultColorFor hovered (a :: rest) scene log =
        Boxes3DPart.load annotationMap defaultColorFor hovered rest
          (Boxes3DPart.loadStep annotationMap defaultColorFor hovered (scene, log) a).1
          (Boxes3DPart.loadStep annotationMap defaultColorFor hovered (scene, log) a).2 := by
      simp [Boxes3DPart.load, List.foldl_cons]
    rw [hcons, ih, loadStep_counter]
    cases hcnt : a.counted
    · simp [List.filter_cons, hcnt]
    · simp [List.filter_cons, hcnt]
      omega

/-- Claim C7 (amended): the legacy load increments the logged-object counter
by exactly one for every visited entity — including entities with an
unreachable transform or with zero instances — and the columnar load
increments it by exactly one for every entity that is reachable and whose
query succeeds, again regardless of how many instances (possibly zero) the
entity contributes. -/
theorem logged_counter_c7 (annotationMap : String → Option ℕ → AnnotationInfo)
    (defaultColorFor : String → Color) (hovered : InstanceIdHash)
    (entities : List ClassicEntity) (aentities : List ArrowEntity)
    (scene scene2 : SceneSpatial) (log : List (String × String)) :
    (Boxes3DPartClassic.load annotationMap defaultColorFor hovered entities
        scene).num_logged_3d_objects = scene.num_logged_3d_objects + entities.length ∧
    (Boxes3DPart.load annotationMap defaultColorFor hovered aentities scene2
        log).1.num_logged_3d_objects =
      scene2.num_logged_3d_objects + (aentities.filter ArrowEntity.counted).length :=
  ⟨classic_load_counter annotationMap defaultColorFor hovered entities scene,
   arrow_load_counter annotationMap defaultColorFor hovered aentities scene2 log⟩

/-- A reachable legacy entity with zero rows: it contributes no instances. -/
def centEmpty : ClassicEntity := ⟨"box1", true, .Reachable A3id, []⟩

/-- Claim C7, counterexample: loading a single reachable legacy entity with
zero instances yields a counter of 1 (an empty batch and no labels), although
the claim says the counter does not increase for an entity contributing no
instance. -/
theorem logged_counter_c7_cex :
    Boxes3DPartClassic.load annNone defRed InstanceIdHash.NONE [centEmpty] SceneSpatial.empty =
      ⟨1, [⟨"box 3d", A3id, []⟩], []⟩ ∧
    (1 : ℕ) ≠ 0 :=
  ⟨rfl, by decide⟩

/-- A non-sentinel identity hash satisfies `is_some`. -/
lemma isSome_true_of_ne (h : InstanceIdHash) (hne : h ≠ InstanceIdHash.NONE) :
    h.isSome = true := by
  cases h
  · exact absurd rfl hne
  · rfl

/-- Claim C8: when an instance's identity hash is not the sentinel and equals
the hovered identity, both visitors replace the final color by the fixed
highlight color and enlarge the final radius by the fixed hover boost,
overriding whatever per-instance, class or default color would otherwise
apply; when the identity hash is the sentinel (in particular for every
instance of a non-interactive entity), the override is never applied and the
layered color/radius resolution stands. -/
theorem hover_override_c8 (ctx : EntityCtx) (w : Affine3)
    (crow : ClassicRow) (arow : ArrowRow)
    (hc1 : instance_hash_if_interactive ctx.objPath crow.instanceIndex ctx.interactiveFlag ≠
      InstanceIdHash.NONE)
    (hc2 : instance_hash_if_interactive ctx.objPath crow.instanceIndex ctx.interactiveFlag =
      ctx.hovered)
    (ha1 : arrowInstanceHash ctx arow ≠ InstanceIdHash.NONE)
    (ha2 : arrowInstanceHash ctx arow = ctx.hovered) :
    (∀ e ∈ (classicVisit ctx w crow).entries,
      e.color = HOVER_COLOR ∧
      e.radius = hover_size_boost
        (crow.stroke_width.elim Size.auto fun sw => Size.new_scene (sw / 2))) ∧
    (∀ e ∈ (arrowVisit ctx w arow).entries,
      e.color = HOVER_COLOR ∧
      e.radius = hover_size_boost (arow.radius.elim Size.auto fun r => Size.new_scene r)) ∧
    (∀ (ctx2 : EntityCtx) (crow2 : ClassicRow),
      instance_hash_if_interactive ctx2.objPath crow2.instanceIndex ctx2.interactiveFlag =
        InstanceIdHash.NONE →
      ∀ e ∈ (classicVisit ctx2 w crow2).entries,
        e.color = to_ecolor ((ctx2.annotationFor (crow2.classId.map u16OfI32)).colorFor
          crow2.color ctx2.defaultColor) ∧
        e.radius = crow2.stroke_width.elim Size.auto fun sw => Size.new_scene (sw / 2)) ∧
    (∀ (ctx2 : EntityCtx) (arow2 : ArrowRow),
      arrowInstanceHash ctx2 arow2 = InstanceIdHash.NONE →
      ∀ e ∈ (arrowVisit ctx2 w arow2).entries,
        e.color = to_ecolor ((ctx2.annotationFor arow2.classId).colorFor
          arow2.color ctx2.defaultColor) ∧
        e.radius = arow2.radius.elim Size.auto fun r => Size.new_scene r) := by
  have hchit : ((instance_hash_if_interactive ctx.objPath crow.instanceIndex
      ctx.interactiveFlag).isSome &&
      (instance_hash_if_interactive ctx.objPath crow.instanceIndex ctx.interactiveFlag ==
        ctx.hovered)) = true := by
    rw [hc2, isSome_true_of_ne _ (hc2 ▸ hc1)]
    simp
  have hahit : ((arrowInstanceHash ctx arow).isSome &&
      (arrowInstanceHash ctx arow == ctx.hovered)) = true := by
    rw [ha2, isSome_true_of_ne _ (ha2 ▸ ha1)]
    simp
  refine ⟨?_, ?_, ?_, ?_⟩
  · intro e he
    simp only [classicVisit, List.mem_map] at he
    obtain ⟨s, _, rfl⟩ := he
    simp [hchit]
  · intro e he
    simp only [arrowVisit, List.mem_map] at he
    obtain ⟨s, _, rfl⟩ := he
    simp [hahit]
  · intro ctx2 crow2 hz e he
    simp only [classicVisit, List.mem_map] at he
    obtain ⟨s, _, rfl⟩ := he
    simp [hoverHit_false_left _ _ hz]
  · intro ctx2 arow2 hz e he
    simp only [arrowVisit, List.mem_map] at he
    obtain ⟨s, _, rfl⟩ := he
    simp [hoverHit_false_left _ _ hz]

/-- An interactive entity context whose hover state points at instance 3. -/
def ctxHov : EntityCtx := ⟨"box1", true, annNone "box1", defRed "box1", InstanceIdHash.hash "box1" 3⟩

/-- A legacy row for instance 3 with no optional fields. -/
def crowIdx3 : ClassicRow := ⟨some 3, 0, 0, obbUnit, none, none, none, none⟩

/-- A columnar row for instance 3 with no optional components. -/
def arowIdx3 : ArrowRow := ⟨3, ⟨1, 1, 1⟩, none, none, none, none, none, none⟩

/-- Witness for claim C8, at a concrete hovered instance. -/
theorem hover_override_c8_witness :
    instance_hash_if_interactive ctxHov.objPath crowIdx3.instanceIndex ctxHov.interactiveFlag ≠
      InstanceIdHash.NONE ∧
    instance_hash_if_interactive ctxHov.objPath crowIdx3.instanceIndex ctxHov.interactiveFlag =
      ctxHov.hovered ∧
    arrowInstanceHash ctxHov arowIdx3 ≠ InstanceIdHash.NONE ∧
    arrowInstanceHash ctxHov arowIdx3 = ctxHov.hovered ∧
    ((∀ e ∈ (classicVisit ctxHov A3id crowIdx3).entries,
      e.color = HOVER_COLOR ∧
      e.radius = hover_size_boost
        (crowIdx3.stroke_width.elim Size.auto fun sw => Size.new_scene (sw / 2))) ∧
     (∀ e ∈ (arrowVisit ctxHov A3id arowIdx3).entries,
      e.color = HOVER_COLOR ∧
      e.radius = hover_size_boost (arowIdx3.radius.elim Size.auto fun r => Size.new_scene r)) ∧
     (∀ (ctx2 : EntityCtx) (crow2 : ClassicRow),
      instance_hash_if_interactive ctx2.objPath crow2.instanceIndex ctx2.interactiveFlag =
        InstanceIdHash.NONE →
      ∀ e ∈ (classicVisit ctx2 A3id crow2).entries,
        e.color = to_ecolor ((ctx2.annotationFor (crow2.classId.map u16OfI32)).colorFor
          crow2.color ctx2.defaultColor) ∧
        e.radius = crow2.stroke_width.elim Size.auto fun sw => Size.new_scene (sw / 2)) ∧
     (∀ (ctx2 : EntityCtx) (arow2 : ArrowRow),
      arrowInstanceHash ctx2 arow2 = InstanceIdHash.NONE →
      ∀ e ∈ (arrowVisit ctx2 A3id arow2).entries,
        e.color = to_ecolor ((ctx2.annotationFor arow2.classId).colorFor
          arow2.color ctx2.defaultColor) ∧
        e.radius = arow2.radius.elim Size.auto fun r => Size.new_scene r)) :=
  ⟨by decide, rfl, by decide, rfl,
    hover_override_c8 ctxHov A3id crowIdx3 arowIdx3 (by decide) rfl (by decide) rfl⟩

/-- Claim C9: the hover highlight changes only segment color and radius — in
both paths the resolved label (text and world-space anchor) is identical
under any two hover states, since it is resolved from the annotation record
alone. -/
theorem label_hover_independence_c9 (path : String) (flag : Bool)
    (annInfoFor : Option ℕ → AnnotationInfo) (dcol : Color)
    (hov1 hov2 : InstanceIdHash) (w : Affine3) (crow : ClassicRow) (arow : ArrowRow) :
    (classicVisit ⟨path, flag, annInfoFor, dcol, hov1⟩ w crow).labelOut =
      (classicVisit ⟨path, flag, annInfoFor, dcol, hov2⟩ w crow).labelOut ∧
    (arrowVisit ⟨path, flag, annInfoFor, dcol, hov1⟩ w arow).labelOut =
      (arrowVisit ⟨path, flag, annInfoFor, dcol, hov2⟩ w arow).labelOut :=
  ⟨rfl, rfl⟩

/-- Claim C10: the legacy per-row visitor ignores the row's timestamp and
message id — two rows agreeing on every other field produce identical
appended segments (radius, color, identity included) and identical labels. -/
theorem time_msgid_noninterference_c10 (ctx : EntityCtx) (w : Affine3) (row : ClassicRow)
    (t1 t2 : ℤ) (m1 m2 : ℕ) :
    classicVisit ctx w { row with time := t1, msgId := m1 } =
      classicVisit ctx w { row with time := t2, msgId := m2 } :=
  rfl

/-- A legacy row and a columnar row carry the same logical box instance: the
same instance identifier, the legacy combined box equals the columnar split
half-size/rotation/position (with the columnar defaults for missing rotation
and position), the same color, label and class id (after the legacy i32 to
u16 cast), and a columnar radius equal to half the legacy stroke width. -/
def RowCorresponds (c : ClassicRow) (a : ArrowRow) : Prop :=
  c.instanceIndex.getD 0 = a.inst ∧
  c.obb.half_size = a.halfSize ∧
  c.obb.rotation = a.rotation.getD Quat.IDENTITY ∧
  c.obb.translation = a.position.getD Vec3.ZERO ∧
  c.color = a.color ∧
  c.stroke_width.map (fun sw => sw / 2) = a.radius ∧
  c.label = a.label ∧
  c.classId.map u16OfI32 = a.classId

/-- On corresponding rows, the two per-row visitors produce identical
output. -/
lemma visit_corresponds (ctx : EntityCtx) (w : Affine3) {c : ClassicRow} {a : ArrowRow}
    (h : RowCorresponds c a) : classicVisit ctx w c = arrowVisit ctx w a := by
  obtain ⟨h1, h2, h3, h4, h5, h6, h7, h8⟩ := h
  simp only [classicVisit, arrowVisit, instance_hash_if_interactive, arrowInstanceHash,
    h1, h2, h3, h4, h5, h7, h8, ← h6]
  cases c.stroke_width <;> rfl

/-- On corresponding row lists, the two visitors append the same batch
entries. -/
lemma entries_corresponds (ctx : EntityCtx) (w : Affine3) {cs : List ClassicRow}
    {as2 : List ArrowRow} (h : List.Forall₂ RowCorresponds cs as2) :
    (cs.flatMap fun r => (classicVisit ctx w r).entries) =
      (as2.flatMap fun r => (arrowVisit ctx w r).entries) := by
  induction h with
  | nil => rfl
  | cons hr ht ih => simp only [List.flatMap_cons, visit_corresponds ctx w hr, ih]

/-- On corresponding row lists, the two visitors push the same labels. -/
lemma labels_corresponds (ctx : EntityCtx) (w : Affine3) {cs : List ClassicRow}
    {as2 : List ArrowRow} (h : List.Forall₂ RowCorresponds cs as2) :
    (cs.filterMap fun r => (classicVisit ctx w r).labelOut) =
      (as2.filterMap fun r => (arrowVisit ctx w r).labelOut) := by
  induction h with
  | nil => rfl
  | cons hr ht ih => simp only [List.filterMap_cons, visit_corresponds ctx w hr, ih]

/-- On corresponding row lists, the accumulated row output coincides. -/
lemma rowsOut_corresponds (ctx : EntityCtx) (w : Affine3) {cs : List ClassicRow}
    {as2 : List ArrowRow} (h : List.Forall₂ RowCorresponds cs as2) :
    rowsOut (classicVisit ctx w) cs = rowsOut (arrowVisit ctx w) as2 := by
  simp only [rowsOut, entries_corresponds ctx w h, labels_corresponds ctx w h]

/-- Claim C3 (amended): for equivalent input data — same path, interactivity,
hover state and reachable world transform, and rows pairwise carrying the
same instances, where the columnar raw radius equals half the legacy stroke
width — the columnar per-entity step appends exactly the scene output of the
legacy per-store body (same batch, same segments with the same radii, colors
and identities, same labels, same counter increment) and leaves the error
log untouched.  With identical raw numeric values instead (columnar radius
equal to the legacy stroke width) the two paths differ by the factor-of-two
radius discrepancy of claim C1. -/
theorem dual_path_equivalence_c3 (annotationMap : String → Option ℕ → AnnotationInfo)
    (defaultColorFor : String → Color) (hovered : InstanceIdHash)
    (ce : ClassicEntity) (ae : ArrowEntity) (arows : List ArrowRow) (w : Affine3)
    (scene : SceneSpatial) (log : List (String × String))
    (hpath : ce.objPath = ae.entPath) (hint : ce.interactiveFlag = ae.interactiveFlag)
    (hct : ce.transform = ReferenceFromObjTransform.Reachable w)
    (hat : ae.transform = ReferenceFromObjTransform.Reachable w)
    (hq : ae.queryResult = QueryResult.ok arows)
    (hrows : List.Forall₂ RowCorresponds ce.rows arows) :
    Boxes3DPart.loadStep annotationMap defaultColorFor hovered (scene, log) ae =
      (Boxes3DPartClassic.processStore annotationMap defaultColorFor hovered ce scene, log) := by
  simp only [Boxes3DPart.loadStep, hat, hq, Boxes3DPart.process_entity_view,
    Boxes3DPartClassic.processStore, hct]
  rw [← hpath, ← hint, rowsOut_corresponds
    ⟨ce.objPath, ce.interactiveFlag, annotationMap ce.objPath, defaultColorFor ce.objPath,
      hovered⟩ w hrows]

/-- A reachable legacy entity holding one attribute-free unit-box row. -/
def ceEquiv : ClassicEntity := ⟨"box1", true, .Reachable A3id, [crowNone]⟩

/-- The corresponding reachable columnar entity with a successful query. -/
def aeEquiv : ArrowEntity := ⟨"box1", true, .Reachable A3id, .ok [arowNone]⟩

/-- Witness for claim C3 (amended), on a concrete corresponding pair. -/
theorem dual_path_equivalence_c3_witness :
    ceEquiv.objPath = aeEquiv.entPath ∧
    ceEquiv.interactiveFlag = aeEquiv.interactiveFlag ∧
    ceEquiv.transform = ReferenceFromObjTransform.Reachable A3id ∧
    aeEquiv.transform = ReferenceFromObjTransform.Reachable A3id ∧
    aeEquiv.queryResult = QueryResult.ok [arowNone] ∧
    List.Forall₂ RowCorresponds ceEquiv.rows [arowNone] ∧
    Boxes3DPart.loadStep annNone defRed InstanceIdHash.NONE (SceneSpatial.empty, []) aeEquiv =
      (Boxes3DPartClassic.processStore annNone defRed InstanceIdHash.NONE ceEquiv
        SceneSpatial.empty, []) :=
  ⟨rfl, rfl, rfl, rfl, rfl,
    List.Forall₂.cons ⟨rfl, rfl, rfl, rfl, rfl, rfl, rfl, rfl⟩ List.Forall₂.nil,
    dual_path_equivalence_c3 annNone defRed InstanceIdHash.NONE ceEquiv aeEquiv [arowNone]
      A3id SceneSpatial.empty [] rfl rfl rfl rfl rfl
      (List.Forall₂.cons ⟨rfl, rfl, rfl, rfl, rfl, rfl, rfl, rfl⟩ List.Forall₂.nil)⟩

/-- A legacy row with stroke width 2 and no other optional fields. -/
def crowSW2 : ClassicRow := ⟨some 0, 0, 0, obbUnit, none, some 2, none, none⟩

/-- A reachable legacy entity whose row carries stroke width 2. -/
def ceRaw2 : ClassicEntity := ⟨"box1", true, .Reachable A3id, [crowSW2]⟩

/-- The columnar entity with the same raw numeric value 2 in its radius
component (the claim's "same stroke widths" reading). -/
def aeRaw2 : ArrowEntity := ⟨"box1", true, .Reachable A3id, .ok [arowR2]⟩

/-- Claim C3, counterexample: with the same raw stroke-width/radius value 2
on otherwise identical data, the legacy path appends all segments with
radius 2 / 2 while the columnar path appends them with radius 2 — the two
paths do not produce identical visual output for the same input values. -/
theorem dual_path_equivalence_c3_cex :
    ((Boxes3DPartClassic.load annNone defRed InstanceIdHash.NONE [ceRaw2]
        SceneSpatial.empty).batches.map fun b => b.entries.map fun e => e.radius) =
      [List.replicate 12 (Size.new_scene (2 / 2))] ∧
    ((Boxes3DPart.load annNone defRed InstanceIdHash.NONE [aeRaw2] SceneSpatial.empty
        []).1.batches.map fun b => b.entries.map fun e => e.radius) =
      [List.replicate 12 (Size.new_scene 2)] ∧
    Size.new_scene (2 / 2) ≠ Size.new_scene 2 := by
  refine ⟨rfl, rfl, ?_⟩
  simp only [Size.new_scene, ne_eq, Size.scene.injEq]
  norm_num
